import Mathlib

/-!
Shallow embedding of `src/osgEarth/TextureCompositor.cpp` (class
`TerrainResources` and `TextureImageUnitReservation`), a GPU
texture-image-unit allocator.

Modelling decisions:
* Texture units are `ℤ` (C++ `int`); `maxUnits` is `ℕ` (C++ `unsigned`),
  passed as an explicit parameter in place of the capability registry read.
* A C++ `const Layer*` is modelled as `Option ℤ`: `none` is the null
  pointer, `some id` a non-null layer identity (layers are compared by
  pointer identity in the source).
* `_globallyReservedUnits : std::set<int>` becomes `Finset ℤ`;
  `_perLayerReservedUnits : std::map<const Layer*, std::set<int>>` becomes
  `Finmap` keyed by `Option ℤ` — key presence is observable, exactly as for
  `std::map` (`operator[]` materialises a key with an empty set).
* The mutex is dropped: every operation is modelled as an atomic function
  on the state, which is what the lock achieves.
* Logging (`OE_INFO` / `OE_WARN`) has no effect on the state and is dropped;
  the `requestor` argument only feeds logging and is likewise dropped.
* The weak back-reference `_res` stored in a reservation handle is a
  lifetime artefact with no influence on the allocator state transitions
  studied here and is omitted from the handle record.
-/

namespace OsgEarth

/-- `std::set<int> ReservedUnits`. -/
abbrev ReservedUnits := Finset ℤ

/-- A `const Layer*`: `none` is the null pointer. -/
abbrev LayerPtr := Option ℤ

/-- State of `TerrainResources`: the globally reserved set `G` and the
per-layer map `P`. -/
structure TerrainResources where
  globallyReservedUnits : ReservedUnits
  perLayerReservedUnits : Finmap (fun _ : LayerPtr => ReservedUnits)
  deriving DecidableEq

/-- Value stored under a key of the per-layer map, defaulting to the
empty set when the key is absent (as `std::map::operator[]` would create). -/
def lookupUnits (P : Finmap (fun _ : LayerPtr => ReservedUnits)) (l : LayerPtr) :
    ReservedUnits :=
  (P.lookup l).getD ∅

/-- The union of all per-layer reserved sets, as collected by the loop over
`_perLayerReservedUnits` in the global reserve forms. -/
def perLayerTaken (s : TerrainResources) : Finset ℤ :=
  s.perLayerReservedUnits.keys.sup fun k => lookupUnits s.perLayerReservedUnits k

/-- The `for( unsigned i=0; i<maxUnits; ++i )` first-fit scan, searching from
index `i` with `fuel` indices remaining; returns the first index whose cast
is not in `taken`. -/
def firstFreeAux (taken : Finset ℤ) : ℕ → ℕ → Option ℕ
  | 0, _ => none
  | fuel + 1, i => if (i : ℤ) ∈ taken then firstFreeAux taken fuel (i + 1) else some i

/-- First-fit scan over `[0, maxUnits)`. -/
def firstFree (maxUnits : ℕ) (taken : Finset ℤ) : Option ℕ :=
  firstFreeAux taken maxUnits 0

/-- `TerrainResources::reserveTextureImageUnit(int&, const char*)`
(lines 35–69): global raw reserve.  Returns `(success, out_unit, new state)`;
`out_unit` is `-1` on failure, as set at entry. -/
def reserveTextureImageUnit (maxUnits : ℕ) (s : TerrainResources) :
    Bool × ℤ × TerrainResources :=
  let taken := s.globallyReservedUnits ∪ perLayerTaken s
  match firstFree maxUnits taken with
  | some i =>
      (true, (i : ℤ),
       { s with globallyReservedUnits := insert (i : ℤ) s.globallyReservedUnits })
  | none => (false, -1, s)

/-- `TerrainResources::reserveTextureImageUnit(int&, const Layer*, const char*)`
(lines 71–108): layer-bound raw reserve.  A null layer delegates to the
global raw reserve.  Otherwise `_perLayerReservedUnits[layer]` materialises
the key (also on failure), the taken set is `G ∪ P[layer]`, and on success
the unit is inserted into the layer's set. -/
def reserveTextureImageUnitLayer (maxUnits : ℕ) (layer : LayerPtr)
    (s : TerrainResources) : Bool × ℤ × TerrainResources :=
  match layer with
  | none => reserveTextureImageUnit maxUnits s
  | some _ =>
      let layerUnits := lookupUnits s.perLayerReservedUnits layer
      let taken := s.globallyReservedUnits ∪ layerUnits
      match firstFree maxUnits taken with
      | some i =>
          (true, (i : ℤ),
           { s with perLayerReservedUnits :=
               s.perLayerReservedUnits.insert layer (insert (i : ℤ) layerUnits) })
      | none =>
          (false, -1,
           { s with perLayerReservedUnits :=
               s.perLayerReservedUnits.insert layer layerUnits })

/-- The handle object (`TextureImageUnitReservation`), without its weak
back-reference `_res`. -/
structure TextureImageUnitReservation where
  unit : ℤ
  layer : LayerPtr
  deriving DecidableEq

/-- `TerrainResources::reserveTextureImageUnit(TextureImageUnitReservation&, const char*)`
(lines 110–145): global handle reserve.  Sets `reservation._unit = -1` at
entry; on success fills the handle with the unit and a null layer. -/
def reserveTextureImageUnitHandle (maxUnits : ℕ)
    (reservation : TextureImageUnitReservation) (s : TerrainResources) :
    Bool × TextureImageUnitReservation × TerrainResources :=
  let res1 := { reservation with unit := -1 }
  let taken := s.globallyReservedUnits ∪ perLayerTaken s
  match firstFree maxUnits taken with
  | some i =>
      (true, { unit := (i : ℤ), layer := none },
       { s with globallyReservedUnits := insert (i : ℤ) s.globallyReservedUnits })
  | none => (false, res1, s)

/-- `TerrainResources::reserveTextureImageUnitForLayer` (lines 147–186):
layer-bound handle reserve.  A null layer logs a warning and returns false
before touching the handle or the state. -/
def reserveTextureImageUnitForLayer (maxUnits : ℕ)
    (reservation : TextureImageUnitReservation) (layer : LayerPtr)
    (s : TerrainResources) :
    Bool × TextureImageUnitReservation × TerrainResources :=
  match layer with
  | none => (false, reservation, s)
  | some _ =>
      let res1 := { reservation with unit := -1 }
      let layerUnits := lookupUnits s.perLayerReservedUnits layer
      let taken := s.globallyReservedUnits ∪ layerUnits
      match firstFree maxUnits taken with
      | some i =>
          (true, { unit := (i : ℤ), layer := layer },
           { s with perLayerReservedUnits :=
               s.perLayerReservedUnits.insert layer (insert (i : ℤ) layerUnits) })
      | none =>
          (false, res1,
           { s with perLayerReservedUnits :=
               s.perLayerReservedUnits.insert layer layerUnits })

/-- `TerrainResources::releaseTextureImageUnit(int)` (lines 188–193):
erase the unit from the global set. -/
def releaseTextureImageUnit (unit : ℤ) (s : TerrainResources) : TerrainResources :=
  { s with globallyReservedUnits := s.globallyReservedUnits.erase unit }

/-- `TerrainResources::releaseTextureImageUnit(int, const Layer*)`
(lines 195–209).  Note the source has no `return` after the null-layer
branch: with a null layer it performs the global release AND falls through
to the per-layer lookup with the null key.  The per-layer part erases the
unit from the layer's set and prunes the key when the set becomes empty. -/
def releaseTextureImageUnitLayer (unit : ℤ) (layer : LayerPtr)
    (s : TerrainResources) : TerrainResources :=
  let s1 := if layer = none then releaseTextureImageUnit unit s else s
  match s1.perLayerReservedUnits.lookup layer with
  | none => s1
  | some units =>
      let units' := units.erase unit
      if units' = ∅ then
        { s1 with perLayerReservedUnits := s1.perLayerReservedUnits.erase layer }
      else
        { s1 with perLayerReservedUnits := s1.perLayerReservedUnits.insert layer units' }

/-- `TerrainResources::setTextureImageUnitOffLimits(int)` (lines 211–236):
fails when the unit is reserved globally or by any layer; otherwise inserts
it into the global set and returns true. -/
def setTextureImageUnitOffLimits (unit : ℤ) (s : TerrainResources) :
    Bool × TerrainResources :=
  if unit ∈ s.globallyReservedUnits then (false, s)
  else if unit ∈ perLayerTaken s then (false, s)
  else (true, { s with globallyReservedUnits := insert unit s.globallyReservedUnits })

/-- The freshly constructed allocator (`TerrainResources::TerrainResources`):
both bookkeeping structures empty. -/
def freshTerrainResources : TerrainResources := ⟨∅, ∅⟩

/-!  Helper lemmas about the first-fit scan and the taken sets. -/

/-- Characterisation of a successful scan: the result is in range, free, and
every smaller index in range is taken. -/
theorem firstFreeAux_some {taken : Finset ℤ} :
    ∀ {fuel i j : ℕ}, firstFreeAux taken fuel i = some j →
      i ≤ j ∧ j < i + fuel ∧ (j : ℤ) ∉ taken ∧ ∀ k : ℕ, i ≤ k → k < j → (k : ℤ) ∈ taken := by
  intro fuel
  induction fuel with
  | zero => intro i j h; simp [firstFreeAux] at h
  | succ n ih =>
    intro i j h
    rw [firstFreeAux] at h
    by_cases hm : (i : ℤ) ∈ taken
    · rw [if_pos hm] at h
      obtain ⟨h1, h2, h3, h4⟩ := ih h
      refine ⟨by omega, by omega, h3, ?_⟩
      intro k hk1 hk2
      rcases Nat.eq_or_lt_of_le hk1 with rfl | hlt
      · exact hm
      · exact h4 k hlt hk2
    · rw [if_neg hm] at h
      obtain rfl : i = j := by simpa using h
      exact ⟨le_refl _, by omega, hm, fun k hk1 hk2 => absurd hk1 (by omega)⟩

/-- Characterisation of a failed scan: every index in range is taken. -/
theorem firstFreeAux_none {taken : Finset ℤ} :
    ∀ {fuel i : ℕ}, firstFreeAux taken fuel i = none ↔
      ∀ k : ℕ, i ≤ k → k < i + fuel → (k : ℤ) ∈ taken := by
  intro fuel
  induction fuel with
  | zero => intro i; simp [firstFreeAux]; omega
  | succ n ih =>
    intro i
    rw [firstFreeAux]
    by_cases hm : (i : ℤ) ∈ taken
    · rw [if_pos hm, ih]
      constructor
      · intro h k hk1 hk2
        rcases Nat.eq_or_lt_of_le hk1 with rfl | hlt
        · exact hm
        · exact h k hlt (by omega)
      · intro h k hk1 hk2
        exact h k (by omega) (by omega)
    · rw [if_neg hm]
      simp only [reduceCtorEq, false_iff]
      intro h
      exact hm (h i (le_refl _) (by omega))

theorem firstFree_some {taken : Finset ℤ} {maxUnits j : ℕ}
    (h : firstFree maxUnits taken = some j) :
    j < maxUnits ∧ (j : ℤ) ∉ taken ∧ ∀ k : ℕ, k < j → (k : ℤ) ∈ taken := by
  obtain ⟨_, h2, h3, h4⟩ := firstFreeAux_some h
  exact ⟨by omega, h3, fun k hk => h4 k (Nat.zero_le _) hk⟩

theorem firstFree_none {taken : Finset ℤ} {maxUnits : ℕ} :
    firstFree maxUnits taken = none ↔ ∀ k : ℕ, k < maxUnits → (k : ℤ) ∈ taken := by
  rw [firstFree, firstFreeAux_none]
  constructor
  · exact fun h k hk => h k (Nat.zero_le _) (by omega)
  · exact fun h k _ hk => h k (by omega)

/-- Membership in the union of the per-layer sets. -/
theorem mem_perLayerTaken {s : TerrainResources} {u : ℤ} :
    u ∈ perLayerTaken s ↔
      ∃ l units, s.perLayerReservedUnits.lookup l = some units ∧ u ∈ units := by
  rw [perLayerTaken, Finset.mem_sup]
  constructor
  · rintro ⟨k, hk, hu⟩
    rw [Finmap.mem_keys, Finmap.mem_iff] at hk
    obtain ⟨b, hb⟩ := hk
    exact ⟨k, b, hb, by rwa [lookupUnits, hb] at hu⟩
  · rintro ⟨l, units, hl, hu⟩
    exact ⟨l, Finmap.mem_keys.2 (Finmap.mem_of_lookup_eq_some hl),
           by rwa [lookupUnits, hl]⟩

/-- C1: first-fit policy.  For every allocator state and every `maxUnits`, a
successful global raw reserve returns the smallest index in `[0, maxUnits)`
outside `G ∪ ⋃ P[L]` and inserts it into `G`; a successful layer-bound raw
reserve (non-null layer) returns the smallest index outside `G ∪ P[layer]`
and inserts it into `P[layer]`. -/
theorem C1_first_fit (maxUnits : ℕ) (s : TerrainResources) (l : ℤ) :
    (∀ u s', reserveTextureImageUnit maxUnits s = (true, u, s') →
       (0 ≤ u ∧ u < (maxUnits : ℤ)) ∧
       u ∉ s.globallyReservedUnits ∪ perLayerTaken s ∧
       (∀ v : ℤ, 0 ≤ v → v < u → v ∈ s.globallyReservedUnits ∪ perLayerTaken s) ∧
       s' = { s with globallyReservedUnits := insert u s.globallyReservedUnits }) ∧
    (∀ u s', reserveTextureImageUnitLayer maxUnits (some l) s = (true, u, s') →
       (0 ≤ u ∧ u < (maxUnits : ℤ)) ∧
       u ∉ s.globallyReservedUnits ∪ lookupUnits s.perLayerReservedUnits (some l) ∧
       (∀ v : ℤ, 0 ≤ v → v < u →
          v ∈ s.globallyReservedUnits ∪ lookupUnits s.perLayerReservedUnits (some l)) ∧
       s' = { s with perLayerReservedUnits :=
                (s.perLayerReservedUnits.insert (some l)
                  (insert u (lookupUnits s.perLayerReservedUnits (some l)))) }) := by
  constructor
  · intro u s' h
    simp only [reserveTextureImageUnit] at h
    split at h
    next i hf =>
      rw [Prod.mk.injEq, Prod.mk.injEq] at h
      obtain ⟨-, rfl, rfl⟩ := h
      obtain ⟨hlt, hfree, hmin⟩ := firstFree_some hf
      refine ⟨⟨Int.natCast_nonneg i, by exact_mod_cast hlt⟩, hfree, ?_, rfl⟩
      intro v hv0 hvu
      lift v to ℕ using hv0
      exact hmin v (by exact_mod_cast hvu)
    next hf => simp at h
  · intro u s' h
    simp only [reserveTextureImageUnitLayer] at h
    split at h
    next i hf =>
      rw [Prod.mk.injEq, Prod.mk.injEq] at h
      obtain ⟨-, rfl, rfl⟩ := h
      obtain ⟨hlt, hfree, hmin⟩ := firstFree_some hf
      refine ⟨⟨Int.natCast_nonneg i, by exact_mod_cast hlt⟩, hfree, ?_, rfl⟩
      intro v hv0 hvu
      lift v to ℕ using hv0
      exact hmin v (by exact_mod_cast hvu)
    next hf => simp at h

/-- Witness for C1 at a concrete input: on the fresh allocator with
`maxUnits = 4` the global reserve succeeds and inserts its unit into `G`. -/
theorem C1_first_fit_witness :
    (reserveTextureImageUnit 4 freshTerrainResources).2.2
      = { freshTerrainResources with
          globallyReservedUnits := insert 0 freshTerrainResources.globallyReservedUnits } :=
  ((C1_first_fit 4 freshTerrainResources 0).1 0
      (reserveTextureImageUnit 4 freshTerrainResources).2.2 (by decide)).2.2.2

/-- C2: scope exclusion.  A successful layer-bound raw reserve (any layer
pointer, null included) never returns a unit in `G`, and a successful global
raw reserve never returns a unit in any per-layer set; hence a layer-bound
reservation and an outstanding global reservation never share a unit. -/
theorem C2_scope_disjoint (maxUnits : ℕ) (s : TerrainResources) (l : LayerPtr) :
    (∀ u s', reserveTextureImageUnitLayer maxUnits l s = (true, u, s') →
       u ∉ s.globallyReservedUnits) ∧
    (∀ u s', reserveTextureImageUnit maxUnits s = (true, u, s') →
       u ∉ perLayerTaken s) := by
  have hglobal : ∀ u s', reserveTextureImageUnit maxUnits s = (true, u, s') →
      u ∉ s.globallyReservedUnits ∪ perLayerTaken s := by
    intro u s' h
    simp only [reserveTextureImageUnit] at h
    split at h
    next i hf =>
      rw [Prod.mk.injEq, Prod.mk.injEq] at h
      obtain ⟨-, rfl, rfl⟩ := h
      exact (firstFree_some hf).2.1
    next hf => simp at h
  constructor
  · intro u s' h
    match l, h with
    | none, h =>
        intro hu
        exact hglobal u s' h (Finset.mem_union_left _ hu)
    | some lv, h =>
        simp only [reserveTextureImageUnitLayer] at h
        split at h
        next i hf =>
          rw [Prod.mk.injEq, Prod.mk.injEq] at h
          obtain ⟨-, rfl, rfl⟩ := h
          intro hu
          exact (firstFree_some hf).2.1 (Finset.mem_union_left _ hu)
        next hf => simp at h
  · intro u s' h hu
    exact hglobal u s' h (Finset.mem_union_right _ hu)

/-- Witness for C2 at a concrete input: with `G = {0}`, a layer-bound
reserve does not return a unit of `G`. -/
theorem C2_scope_disjoint_witness :
    (reserveTextureImageUnitLayer 4 (some 1)
        (⟨{0}, ∅⟩ : TerrainResources)).2.1
      ∉ (⟨{0}, ∅⟩ : TerrainResources).globallyReservedUnits :=
  (C2_scope_disjoint 4 ⟨{0}, ∅⟩ (some 1)).1
    (reserveTextureImageUnitLayer 4 (some 1) (⟨{0}, ∅⟩ : TerrainResources)).2.1
    (reserveTextureImageUnitLayer 4 (some 1) (⟨{0}, ∅⟩ : TerrainResources)).2.2
    (by decide)

/-- C3: layer-bound reserves for distinct layers do not block each other.
The outcome (success flag and returned unit) of a layer-bound reserve
depends only on `G` and the requesting layer's own set; consequently, on a
fresh allocator with `maxUnits ≥ 1`, reserving for `L1` and then for a
distinct layer `L2` both succeed and both return unit `0`. -/
theorem C3_layers_independent (maxUnits : ℕ) (l1 l2 : ℤ) (hne : l1 ≠ l2)
    (hmax : 1 ≤ maxUnits) :
    (∀ s t : TerrainResources,
       s.globallyReservedUnits = t.globallyReservedUnits →
       s.perLayerReservedUnits.lookup (some l1) = t.perLayerReservedUnits.lookup (some l1) →
       (reserveTextureImageUnitLayer maxUnits (some l1) s).1
         = (reserveTextureImageUnitLayer maxUnits (some l1) t).1 ∧
       (reserveTextureImageUnitLayer maxUnits (some l1) s).2.1
         = (reserveTextureImageUnitLayer maxUnits (some l1) t).2.1) ∧
    (reserveTextureImageUnitLayer maxUnits (some l1) freshTerrainResources).1 = true ∧
    (reserveTextureImageUnitLayer maxUnits (some l1) freshTerrainResources).2.1 = 0 ∧
    (reserveTextureImageUnitLayer maxUnits (some l2)
       (reserveTextureImageUnitLayer maxUnits (some l1) freshTerrainResources).2.2).1 = true ∧
    (reserveTextureImageUnitLayer maxUnits (some l2)
       (reserveTextureImageUnitLayer maxUnits (some l1) freshTerrainResources).2.2).2.1 = 0 := by
  obtain ⟨m, rfl⟩ : ∃ m, maxUnits = m + 1 :=
    ⟨maxUnits - 1, by omega⟩
  have hscan : ∀ G : Finset ℤ, (0 : ℤ) ∉ G → firstFree (m + 1) G = some 0 := by
    intro G hG
    rw [firstFree, firstFreeAux, if_neg (by simpa using hG)]
  constructor
  · intro s t hG hP
    simp only [reserveTextureImageUnitLayer, lookupUnits, hG, hP]
    cases firstFree (m + 1)
        (t.globallyReservedUnits ∪ (t.perLayerReservedUnits.lookup (some l1)).getD ∅) <;>
      simp
  · have h1 : reserveTextureImageUnitLayer (m + 1) (some l1) freshTerrainResources
        = (true, 0, { freshTerrainResources with
            perLayerReservedUnits :=
              (∅ : Finmap fun _ : LayerPtr => ReservedUnits).insert (some l1)
                (insert 0 ∅) }) := by
      simp only [reserveTextureImageUnitLayer, freshTerrainResources, lookupUnits,
        Finmap.lookup_empty, Option.getD_none]
      rw [hscan _ (by simp)]
      simp
    rw [h1]
    have hlookup :
        ((∅ : Finmap fun _ : LayerPtr => ReservedUnits).insert (some l1)
            (insert 0 ∅)).lookup (some l2) = none := by
      rw [Finmap.lookup_insert_of_ne _ (by simpa using (Ne.symm hne)), Finmap.lookup_empty]
    refine ⟨rfl, rfl, ?_, ?_⟩ <;>
    · simp only [reserveTextureImageUnitLayer, lookupUnits, hlookup, Option.getD_none]
      rw [hscan _ (by simp [freshTerrainResources])]
      try simp

/-- Witness for C3 at a concrete input: distinct layers 1 and 2 both obtain
unit 0 on the fresh allocator with `maxUnits = 4`. -/
theorem C3_layers_independent_witness :
    (reserveTextureImageUnitLayer 4 (some 1) freshTerrainResources).2.1 = 0 ∧
    (reserveTextureImageUnitLayer 4 (some 2)
       (reserveTextureImageUnitLayer 4 (some 1) freshTerrainResources).2.2).2.1 = 0 :=
  ⟨(C3_layers_independent 4 1 2 (by decide) (by decide)).2.2.1,
   (C3_layers_independent 4 1 2 (by decide) (by decide)).2.2.2.2⟩

/-!  Case characterisations of the reserve operations, used below. -/

theorem reserveTextureImageUnit_eq (maxUnits : ℕ) (s : TerrainResources) :
    (firstFree maxUnits (s.globallyReservedUnits ∪ perLayerTaken s) = none ∧
       reserveTextureImageUnit maxUnits s = (false, -1, s)) ∨
    (∃ i : ℕ, firstFree maxUnits (s.globallyReservedUnits ∪ perLayerTaken s) = some i ∧
       reserveTextureImageUnit maxUnits s
         = (true, (i : ℤ),
            { s with globallyReservedUnits := insert (i : ℤ) s.globallyReservedUnits })) := by
  cases hf : firstFree maxUnits (s.globallyReservedUnits ∪ perLayerTaken s) with
  | none => exact Or.inl ⟨rfl, by simp only [reserveTextureImageUnit]; rw [hf]⟩
  | some i => exact Or.inr ⟨i, rfl, by simp only [reserveTextureImageUnit]; rw [hf]⟩

theorem reserveTextureImageUnitLayer_eq (maxUnits : ℕ) (l : ℤ) (s : TerrainResources) :
    (firstFree maxUnits
        (s.globallyReservedUnits ∪ lookupUnits s.perLayerReservedUnits (some l)) = none ∧
       reserveTextureImageUnitLayer maxUnits (some l) s
         = (false, -1,
            { s with perLayerReservedUnits :=
                (s.perLayerReservedUnits.insert (some l)
                  (lookupUnits s.perLayerReservedUnits (some l))) })) ∨
    (∃ i : ℕ, firstFree maxUnits
        (s.globallyReservedUnits ∪ lookupUnits s.perLayerReservedUnits (some l)) = some i ∧
       reserveTextureImageUnitLayer maxUnits (some l) s
         = (true, (i : ℤ),
            { s with perLayerReservedUnits :=
                (s.perLayerReservedUnits.insert (some l)
                  (insert (i : ℤ) (lookupUnits s.perLayerReservedUnits (some l)))) })) := by
  cases hf : firstFree maxUnits
      (s.globallyReservedUnits ∪ lookupUnits s.perLayerReservedUnits (some l)) with
  | none => exact Or.inl ⟨rfl, by simp only [reserveTextureImageUnitLayer]; rw [hf]⟩
  | some i => exact Or.inr ⟨i, rfl, by simp only [reserveTextureImageUnitLayer]; rw [hf]⟩

theorem reserveTextureImageUnitHandle_eq (maxUnits : ℕ)
    (r : TextureImageUnitReservation) (s : TerrainResources) :
    (firstFree maxUnits (s.globallyReservedUnits ∪ perLayerTaken s) = none ∧
       reserveTextureImageUnitHandle maxUnits r s
         = (false, { r with unit := -1 }, s)) ∨
    (∃ i : ℕ, firstFree maxUnits (s.globallyReservedUnits ∪ perLayerTaken s) = some i ∧
       reserveTextureImageUnitHandle maxUnits r s
         = (true, ⟨(i : ℤ), none⟩,
            { s with globallyReservedUnits := insert (i : ℤ) s.globallyReservedUnits })) := by
  cases hf : firstFree maxUnits (s.globallyReservedUnits ∪ perLayerTaken s) with
  | none => exact Or.inl ⟨rfl, by simp only [reserveTextureImageUnitHandle]; rw [hf]⟩
  | some i => exact Or.inr ⟨i, rfl, by simp only [reserveTextureImageUnitHandle]; rw [hf]⟩

theorem reserveTextureImageUnitForLayer_eq (maxUnits : ℕ)
    (r : TextureImageUnitReservation) (l : ℤ) (s : TerrainResources) :
    (firstFree maxUnits
        (s.globallyReservedUnits ∪ lookupUnits s.perLayerReservedUnits (some l)) = none ∧
       reserveTextureImageUnitForLayer maxUnits r (some l) s
         = (false, { r with unit := -1 },
            { s with perLayerReservedUnits :=
                (s.perLayerReservedUnits.insert (some l)
                  (lookupUnits s.perLayerReservedUnits (some l))) })) ∨
    (∃ i : ℕ, firstFree maxUnits
        (s.globallyReservedUnits ∪ lookupUnits s.perLayerReservedUnits (some l)) = some i ∧
       reserveTextureImageUnitForLayer maxUnits r (some l) s
         = (true, ⟨(i : ℤ), some l⟩,
            { s with perLayerReservedUnits :=
                (s.perLayerReservedUnits.insert (some l)
                  (insert (i : ℤ) (lookupUnits s.perLayerReservedUnits (some l)))) })) := by
  cases hf : firstFree maxUnits
      (s.globallyReservedUnits ∪ lookupUnits s.perLayerReservedUnits (some l)) with
  | none => exact Or.inl ⟨rfl, by simp only [reserveTextureImageUnitForLayer]; rw [hf]⟩
  | some i => exact Or.inr ⟨i, rfl, by simp only [reserveTextureImageUnitForLayer]; rw [hf]⟩

/-- The layer-bound release only touches `G` through its null-layer branch,
which performs the global release. -/
theorem releaseTextureImageUnitLayer_G (v : ℤ) (l : LayerPtr) (t : TerrainResources) :
    (releaseTextureImageUnitLayer v l t).globallyReservedUnits
      = (if l = none then releaseTextureImageUnit v t else t).globallyReservedUnits := by
  rw [releaseTextureImageUnitLayer]
  generalize (if l = none then releaseTextureImageUnit v t else t) = s1
  split
  · rfl
  · dsimp only
    split <;> rfl

/-- C4: `setTextureImageUnitOffLimits(u)` returns true iff `u` is in neither
`G` nor any per-layer set; on true it inserts `u` into `G`, on false it
leaves the state untouched; while `u ∈ G` no reserve (raw or handle, global
or layer-bound) returns `u`, and `u ∈ G` is preserved by every operation
other than a global release of `u` (the raw global release, or the
layer-bound release with a null layer, which degrades to it). -/
theorem C4_setTextureImageUnitOffLimits (u : ℤ) (s : TerrainResources) (maxUnits : ℕ) :
    ((setTextureImageUnitOffLimits u s).1 = true ↔
       u ∉ s.globallyReservedUnits ∧ u ∉ perLayerTaken s) ∧
    ((setTextureImageUnitOffLimits u s).1 = true →
       (setTextureImageUnitOffLimits u s).2
         = { s with globallyReservedUnits := insert u s.globallyReservedUnits }) ∧
    ((setTextureImageUnitOffLimits u s).1 = false →
       (setTextureImageUnitOffLimits u s).2 = s) ∧
    (∀ t : TerrainResources, u ∈ t.globallyReservedUnits →
       ((reserveTextureImageUnit maxUnits t).1 = true →
          (reserveTextureImageUnit maxUnits t).2.1 ≠ u) ∧
       (∀ l : LayerPtr, (reserveTextureImageUnitLayer maxUnits l t).1 = true →
          (reserveTextureImageUnitLayer maxUnits l t).2.1 ≠ u) ∧
       (∀ r, (reserveTextureImageUnitHandle maxUnits r t).1 = true →
          (reserveTextureImageUnitHandle maxUnits r t).2.1.unit ≠ u) ∧
       (∀ r l, (reserveTextureImageUnitForLayer maxUnits r l t).1 = true →
          (reserveTextureImageUnitForLayer maxUnits r l t).2.1.unit ≠ u)) ∧
    (∀ t : TerrainResources, u ∈ t.globallyReservedUnits →
       u ∈ (reserveTextureImageUnit maxUnits t).2.2.globallyReservedUnits ∧
       (∀ l, u ∈ (reserveTextureImageUnitLayer maxUnits l t).2.2.globallyReservedUnits) ∧
       (∀ r, u ∈ (reserveTextureImageUnitHandle maxUnits r t).2.2.globallyReservedUnits) ∧
       (∀ r l, u ∈ (reserveTextureImageUnitForLayer maxUnits r l t).2.2.globallyReservedUnits) ∧
       (∀ v, u ∈ ((setTextureImageUnitOffLimits v t).2).globallyReservedUnits) ∧
       (∀ v, v ≠ u → u ∈ (releaseTextureImageUnit v t).globallyReservedUnits) ∧
       (∀ v l, u ∈ (releaseTextureImageUnitLayer v (some l) t).globallyReservedUnits) ∧
       (∀ v, v ≠ u → u ∈ (releaseTextureImageUnitLayer v none t).globallyReservedUnits)) := by
  have hGfree : ∀ (t : TerrainResources) (mu : ℕ) (T : Finset ℤ) (i : ℕ),
      t.globallyReservedUnits ⊆ T → u ∈ t.globallyReservedUnits →
      firstFree mu T = some i → (i : ℤ) ≠ u := by
    intro t mu T i hsub hu hf heq
    apply (firstFree_some hf).2.1
    rw [heq]
    exact hsub hu
  refine ⟨?_, ?_, ?_, ?_, ?_⟩
  · rw [setTextureImageUnitOffLimits]
    split_ifs with h1 h2
    · simp [h1]
    · simp [h1, h2]
    · simp [h1, h2]
  · rw [setTextureImageUnitOffLimits]
    split_ifs with h1 h2
    · simp
    · simp
    · intro _
      rfl
  · rw [setTextureImageUnitOffLimits]
    split_ifs with h1 h2
    · intro _
      rfl
    · intro _
      rfl
    · simp
  · intro t hu
    refine ⟨?_, ?_, ?_, ?_⟩
    · rcases reserveTextureImageUnit_eq maxUnits t with ⟨-, heq⟩ | ⟨i, hf, heq⟩ <;>
        rw [heq]
      · simp
      · intro _
        exact hGfree t maxUnits _ i (Finset.subset_union_left) hu hf
    · intro l
      match l with
      | none =>
        show (reserveTextureImageUnit maxUnits t).1 = true →
          (reserveTextureImageUnit maxUnits t).2.1 ≠ u
        rcases reserveTextureImageUnit_eq maxUnits t with ⟨-, heq⟩ | ⟨i, hf, heq⟩ <;>
          rw [heq]
        · simp
        · intro _
          exact hGfree t maxUnits _ i (Finset.subset_union_left) hu hf
      | some lv =>
        rcases reserveTextureImageUnitLayer_eq maxUnits lv t with ⟨-, heq⟩ | ⟨i, hf, heq⟩ <;>
          rw [heq]
        · simp
        · intro _
          exact hGfree t maxUnits _ i (Finset.subset_union_left) hu hf
    · intro r
      rcases reserveTextureImageUnitHandle_eq maxUnits r t with ⟨-, heq⟩ | ⟨i, hf, heq⟩ <;>
        rw [heq]
      · simp
      · intro _
        exact hGfree t maxUnits _ i (Finset.subset_union_left) hu hf
    · intro r l
      match l with
      | none =>
        show (false, r, t).1 = true → _
        simp
      | some lv =>
        rcases reserveTextureImageUnitForLayer_eq maxUnits r lv t with ⟨-, heq⟩ | ⟨i, hf, heq⟩ <;>
          rw [heq]
        · simp
        · intro _
          exact hGfree t maxUnits _ i (Finset.subset_union_left) hu hf
  · intro t hu
    refine ⟨?_, ?_, ?_, ?_, ?_, ?_, ?_, ?_⟩
    · rcases reserveTextureImageUnit_eq maxUnits t with ⟨-, heq⟩ | ⟨i, hf, heq⟩ <;>
        rw [heq]
      · exact hu
      · exact Finset.mem_insert_of_mem hu
    · intro l
      match l with
      | none =>
        show u ∈ (reserveTextureImageUnit maxUnits t).2.2.globallyReservedUnits
        rcases reserveTextureImageUnit_eq maxUnits t with ⟨-, heq⟩ | ⟨i, hf, heq⟩ <;>
          rw [heq]
        · exact hu
        · exact Finset.mem_insert_of_mem hu
      | some lv =>
        rcases reserveTextureImageUnitLayer_eq maxUnits lv t with ⟨-, heq⟩ | ⟨i, hf, heq⟩ <;>
          rw [heq] <;> exact hu
    · intro r
      rcases reserveTextureImageUnitHandle_eq maxUnits r t with ⟨-, heq⟩ | ⟨i, hf, heq⟩ <;>
        rw [heq]
      · exact hu
      · exact Finset.mem_insert_of_mem hu
    · intro r l
      match l with
      | none => exact hu
      | some lv =>
        rcases reserveTextureImageUnitForLayer_eq maxUnits r lv t with ⟨-, heq⟩ | ⟨i, hf, heq⟩ <;>
          rw [heq] <;> exact hu
    · intro v
      rw [setTextureImageUnitOffLimits]
      split_ifs <;> first
        | exact hu
        | exact Finset.mem_insert_of_mem hu
    · intro v hv
      exact Finset.mem_erase_of_ne_of_mem (fun h => hv h.symm) hu
    · intro v l
      have hG := releaseTextureImageUnitLayer_G v (some l) t
      rw [if_neg (by simp)] at hG
      rw [hG]
      exact hu
    · intro v hv
      have hG := releaseTextureImageUnitLayer_G v none t
      rw [if_pos rfl] at hG
      rw [hG]
      exact Finset.mem_erase_of_ne_of_mem (fun h => hv h.symm) hu

/-- Witness for C4 at a concrete input: marking unit 2 off-limits on the
fresh allocator inserts 2 into the global set. -/
theorem C4_setTextureImageUnitOffLimits_witness :
    (setTextureImageUnitOffLimits 2 freshTerrainResources).2
      = { freshTerrainResources with
          globallyReservedUnits := insert 2 freshTerrainResources.globallyReservedUnits } :=
  (C4_setTextureImageUnitOffLimits 2 freshTerrainResources 4).2.1 (by decide)

/-- C5: a raw reserve returns false (with out-parameter `-1`) iff every index
of `[0, maxUnits)` is in the taken set for its scope, and a successful raw
reserve returns a unit in `[0, maxUnits)`. -/
theorem C5_exhaustion (maxUnits : ℕ) (s : TerrainResources) (l : ℤ) :
    ((reserveTextureImageUnit maxUnits s).1 = false ↔
       ∀ i : ℕ, i < maxUnits → (i : ℤ) ∈ s.globallyReservedUnits ∪ perLayerTaken s) ∧
    ((reserveTextureImageUnit maxUnits s).1 = false →
       (reserveTextureImageUnit maxUnits s).2.1 = -1) ∧
    ((reserveTextureImageUnit maxUnits s).1 = true →
       0 ≤ (reserveTextureImageUnit maxUnits s).2.1 ∧
       (reserveTextureImageUnit maxUnits s).2.1 < (maxUnits : ℤ)) ∧
    ((reserveTextureImageUnitLayer maxUnits (some l) s).1 = false ↔
       ∀ i : ℕ, i < maxUnits →
         (i : ℤ) ∈ s.globallyReservedUnits ∪ lookupUnits s.perLayerReservedUnits (some l)) ∧
    ((reserveTextureImageUnitLayer maxUnits (some l) s).1 = false →
       (reserveTextureImageUnitLayer maxUnits (some l) s).2.1 = -1) ∧
    ((reserveTextureImageUnitLayer maxUnits (some l) s).1 = true →
       0 ≤ (reserveTextureImageUnitLayer maxUnits (some l) s).2.1 ∧
       (reserveTextureImageUnitLayer maxUnits (some l) s).2.1 < (maxUnits : ℤ)) := by
  have hg := reserveTextureImageUnit_eq maxUnits s
  have hl := reserveTextureImageUnitLayer_eq maxUnits l s
  refine ⟨?_, ?_, ?_, ?_, ?_, ?_⟩
  · rcases hg with ⟨hf, heq⟩ | ⟨i, hf, heq⟩ <;> rw [heq]
    · simpa using firstFree_none.1 hf
    · constructor
      · intro h
        simp at h
      · intro hall
        exact absurd (hall i (firstFree_some hf).1) (firstFree_some hf).2.1
  · rcases hg with ⟨hf, heq⟩ | ⟨i, hf, heq⟩ <;> rw [heq] <;> simp
  · rcases hg with ⟨hf, heq⟩ | ⟨i, hf, heq⟩ <;> rw [heq] <;> intro h
    · simp at h
    · refine ⟨Int.natCast_nonneg i, ?_⟩
      show (i : ℤ) < (maxUnits : ℤ)
      exact_mod_cast (firstFree_some hf).1
  · rcases hl with ⟨hf, heq⟩ | ⟨i, hf, heq⟩ <;> rw [heq]
    · simpa using firstFree_none.1 hf
    · constructor
      · intro h
        simp at h
      · intro hall
        exact absurd (hall i (firstFree_some hf).1) (firstFree_some hf).2.1
  · rcases hl with ⟨hf, heq⟩ | ⟨i, hf, heq⟩ <;> rw [heq] <;> simp
  · rcases hl with ⟨hf, heq⟩ | ⟨i, hf, heq⟩ <;> rw [heq] <;> intro h
    · simp at h
    · refine ⟨Int.natCast_nonneg i, ?_⟩
      show (i : ℤ) < (maxUnits : ℤ)
      exact_mod_cast (firstFree_some hf).1

/-- Witness for C5 at a concrete input: with `maxUnits = 1` and unit 0
globally reserved, the global reserve fails with out-parameter `-1`. -/
theorem C5_exhaustion_witness :
    (reserveTextureImageUnit 1 (⟨{0}, ∅⟩ : TerrainResources)).2.1 = -1 :=
  (C5_exhaustion 1 ⟨{0}, ∅⟩ 0).2.1 (by decide)

/-- C6: on any state whose per-layer map has no entry under the null key,
the layer-bound release with a null layer produces exactly the state of the
global release (unit removed from `G`, `P` unchanged); and no operation of
the allocator ever creates a null-key entry (the fresh allocator has none,
and every operation preserves its absence), so the hypothesis holds in
every reachable state. -/
theorem C6_release_null_layer (u : ℤ) (s : TerrainResources) (maxUnits : ℕ) :
    (s.perLayerReservedUnits.lookup none = none →
       releaseTextureImageUnitLayer u none s = releaseTextureImageUnit u s) ∧
    (s.perLayerReservedUnits.lookup none = none →
       ((reserveTextureImageUnit maxUnits s).2.2.perLayerReservedUnits.lookup none
          = none ∧
        (∀ l, (reserveTextureImageUnitLayer maxUnits l
                 s).2.2.perLayerReservedUnits.lookup none = none) ∧
        (∀ r, (reserveTextureImageUnitHandle maxUnits r
                 s).2.2.perLayerReservedUnits.lookup none = none) ∧
        (∀ r l, (reserveTextureImageUnitForLayer maxUnits r l
                 s).2.2.perLayerReservedUnits.lookup none = none) ∧
        (∀ v, (setTextureImageUnitOffLimits v s).2.perLayerReservedUnits.lookup none
          = none) ∧
        (∀ v, (releaseTextureImageUnit v s).perLayerReservedUnits.lookup none
          = none) ∧
        (∀ v l, (releaseTextureImageUnitLayer v l s).perLayerReservedUnits.lookup none
          = none))) ∧
    freshTerrainResources.perLayerReservedUnits.lookup none = none := by
  refine ⟨?_, ?_, Finmap.lookup_empty none⟩
  · intro hlk
    rw [releaseTextureImageUnitLayer]
    dsimp only
    rw [if_pos rfl]
    have hlk' : (releaseTextureImageUnit u s).perLayerReservedUnits.lookup none
        = none := hlk
    rw [hlk']
  · intro hlk
    refine ⟨?_, ?_, ?_, ?_, ?_, ?_, ?_⟩
    · rcases reserveTextureImageUnit_eq maxUnits s with ⟨-, heq⟩ | ⟨i, -, heq⟩ <;>
        rw [heq] <;> exact hlk
    · intro l
      match l with
      | none =>
        show (reserveTextureImageUnit maxUnits s).2.2.perLayerReservedUnits.lookup none
          = none
        rcases reserveTextureImageUnit_eq maxUnits s with ⟨-, heq⟩ | ⟨i, -, heq⟩ <;>
          rw [heq] <;> exact hlk
      | some lv =>
        rcases reserveTextureImageUnitLayer_eq maxUnits lv s with ⟨-, heq⟩ | ⟨i, -, heq⟩ <;>
          rw [heq] <;> dsimp only <;>
          rw [Finmap.lookup_insert_of_ne _ (by simp)] <;> exact hlk
    · intro r
      rcases reserveTextureImageUnitHandle_eq maxUnits r s with ⟨-, heq⟩ | ⟨i, -, heq⟩ <;>
        rw [heq] <;> exact hlk
    · intro r l
      match l with
      | none => exact hlk
      | some lv =>
        rcases reserveTextureImageUnitForLayer_eq maxUnits r lv s with
            ⟨-, heq⟩ | ⟨i, -, heq⟩ <;>
          rw [heq] <;> dsimp only <;>
          rw [Finmap.lookup_insert_of_ne _ (by simp)] <;> exact hlk
    · intro v
      rw [setTextureImageUnitOffLimits]
      split_ifs <;> exact hlk
    · intro v
      exact hlk
    · intro v l
      match l with
      | none =>
        rw [releaseTextureImageUnitLayer]
        dsimp only
        rw [if_pos rfl]
        have hlk' : (releaseTextureImageUnit v s).perLayerReservedUnits.lookup none
            = none := hlk
        rw [hlk']
        exact hlk
      | some lv =>
        rw [releaseTextureImageUnitLayer]
        dsimp only
        rw [if_neg (by simp)]
        cases hcase : s.perLayerReservedUnits.lookup (some lv) with
        | none => exact hlk
        | some units =>
          dsimp only
          split
          · rw [Finmap.lookup_erase_ne (by simp)]
            exact hlk
          · rw [Finmap.lookup_insert_of_ne _ (by simp)]
            exact hlk

/-- Witness for C6 at a concrete input. -/
theorem C6_release_null_layer_witness :
    releaseTextureImageUnitLayer 0 none (⟨{0}, ∅⟩ : TerrainResources)
      = releaseTextureImageUnit 0 (⟨{0}, ∅⟩ : TerrainResources) :=
  (C6_release_null_layer 0 ⟨{0}, ∅⟩ 4).1 (by decide)

/-- Re-inserting the value a key already holds leaves a `Finmap` unchanged. -/
theorem insert_lookup_self {P : Finmap (fun _ : LayerPtr => ReservedUnits)}
    {a : LayerPtr} {b : ReservedUnits} (h : P.lookup a = some b) :
    P.insert a b = P := by
  apply Finmap.ext_lookup
  intro x
  by_cases hx : x = a
  · subst hx
    rw [Finmap.lookup_insert, h]
  · rw [Finmap.lookup_insert_of_ne _ hx]

/-- Counterexample to C7 as stated: on the reachable state obtained by a
global reserve with `maxUnits = 1` followed by a failing layer-bound reserve
for layer 7 (which leaves layer 7 mapped to the empty set), releasing unit 3
for layer 7 — a unit not in `P[7]` — is NOT a no-op: it prunes the empty
entry. -/
theorem C7_release_idempotent_counterexample :
    (3 : ℤ) ∉ lookupUnits
        ((reserveTextureImageUnitLayer 1 (some 7)
            (reserveTextureImageUnit 1 freshTerrainResources).2.2).2.2).perLayerReservedUnits
        (some 7) ∧
    releaseTextureImageUnitLayer 3 (some 7)
        (reserveTextureImageUnitLayer 1 (some 7)
            (reserveTextureImageUnit 1 freshTerrainResources).2.2).2.2
      ≠ (reserveTextureImageUnitLayer 1 (some 7)
            (reserveTextureImageUnit 1 freshTerrainResources).2.2).2.2 := by
  decide

/-- Componentwise equality of allocator states. -/
theorem TR_ext {a b : TerrainResources}
    (h1 : a.globallyReservedUnits = b.globallyReservedUnits)
    (h2 : a.perLayerReservedUnits = b.perLayerReservedUnits) : a = b := by
  cases a
  cases b
  cases h1
  cases h2
  rfl

/-- Unfolding of the layer-bound release at a non-null layer. -/
theorem releaseTextureImageUnitLayer_some_eq (v lv : ℤ) (t : TerrainResources) :
    releaseTextureImageUnitLayer v (some lv) t
      = match t.perLayerReservedUnits.lookup (some lv) with
        | none => t
        | some units =>
          if units.erase v = ∅ then
            { t with perLayerReservedUnits := t.perLayerReservedUnits.erase (some lv) }
          else
            { t with perLayerReservedUnits :=
                (t.perLayerReservedUnits.insert (some lv) (units.erase v)) } := by
  rw [releaseTextureImageUnitLayer]
  dsimp only
  rw [if_neg (by simp)]

/-- Unfolding of the layer-bound release at the null layer: the global
release happens first (missing `return` in the source), then the per-layer
step runs with the null key. -/
theorem releaseTextureImageUnitLayer_none_eq (v : ℤ) (t : TerrainResources) :
    releaseTextureImageUnitLayer v none t
      = match t.perLayerReservedUnits.lookup none with
        | none => releaseTextureImageUnit v t
        | some units =>
          if units.erase v = ∅ then
            { releaseTextureImageUnit v t with perLayerReservedUnits :=
                (t.perLayerReservedUnits.erase none) }
          else
            { releaseTextureImageUnit v t with perLayerReservedUnits :=
                (t.perLayerReservedUnits.insert none (units.erase v)) } := by
  rw [releaseTextureImageUnitLayer]
  dsimp only
  rw [if_pos rfl]
  rfl

/-- C7 (amended): `releaseGlobal(u)` with `u ∉ G` is a no-op;
`releaseForLayer(u, L)` with `u ∉ P[L]` is a no-op unless `L` is mapped to
the empty set, in which case exactly that empty entry is pruned (`G` and all
other entries unchanged); and applying the same release twice (either form,
any arguments) equals applying it once. -/
theorem C7_release_idempotent (u : ℤ) (l : ℤ) (s : TerrainResources) :
    (u ∉ s.globallyReservedUnits → releaseTextureImageUnit u s = s) ∧
    (u ∉ lookupUnits s.perLayerReservedUnits (some l) →
       s.perLayerReservedUnits.lookup (some l) ≠ some ∅ →
       releaseTextureImageUnitLayer u (some l) s = s) ∧
    (s.perLayerReservedUnits.lookup (some l) = some ∅ →
       releaseTextureImageUnitLayer u (some l) s
         = { s with perLayerReservedUnits := s.perLayerReservedUnits.erase (some l) }) ∧
    (releaseTextureImageUnit u (releaseTextureImageUnit u s)
       = releaseTextureImageUnit u s) ∧
    (releaseTextureImageUnitLayer u (some l)
        (releaseTextureImageUnitLayer u (some l) s)
       = releaseTextureImageUnitLayer u (some l) s) ∧
    (releaseTextureImageUnitLayer u none (releaseTextureImageUnitLayer u none s)
       = releaseTextureImageUnitLayer u none s) := by
  refine ⟨?_, ?_, ?_, ?_, ?_, ?_⟩
  · intro hu
    rw [releaseTextureImageUnit, Finset.erase_eq_of_not_mem hu]
  · intro hu hne
    rw [releaseTextureImageUnitLayer_some_eq]
    cases hc : s.perLayerReservedUnits.lookup (some l) with
    | none => rfl
    | some units =>
      dsimp only
      rw [lookupUnits, hc] at hu
      have herase : units.erase u = units :=
        Finset.erase_eq_of_not_mem (by simpa using hu)
      rw [herase, if_neg (fun h : units = ∅ => hne (hc.trans (congrArg Option.some h)))]
      exact TR_ext rfl (insert_lookup_self hc)
  · intro hc
    rw [releaseTextureImageUnitLayer_some_eq, hc]
    dsimp only
    rw [if_pos (by simp)]
  · simp only [releaseTextureImageUnit, Finset.erase_idem]
  · rw [releaseTextureImageUnitLayer_some_eq u l s]
    cases hc : s.perLayerReservedUnits.lookup (some l) with
    | none =>
      dsimp only
      rw [releaseTextureImageUnitLayer_some_eq, hc]
    | some units =>
      dsimp only
      by_cases hempty : units.erase u = ∅
      · rw [if_pos hempty, releaseTextureImageUnitLayer_some_eq]
        dsimp only
        rw [Finmap.lookup_erase]
      · rw [if_neg hempty, releaseTextureImageUnitLayer_some_eq]
        dsimp only
        rw [Finmap.lookup_insert]
        dsimp only
        rw [Finset.erase_idem, if_neg hempty]
        exact TR_ext rfl (Finmap.insert_insert _)
  · rw [releaseTextureImageUnitLayer_none_eq u s]
    cases hc : s.perLayerReservedUnits.lookup none with
    | none =>
      dsimp only
      rw [releaseTextureImageUnitLayer_none_eq]
      dsimp only [releaseTextureImageUnit]
      rw [hc]
      dsimp only
      exact TR_ext (Finset.erase_idem) rfl
    | some units =>
      dsimp only
      by_cases hempty : units.erase u = ∅
      · rw [if_pos hempty, releaseTextureImageUnitLayer_none_eq]
        dsimp only [releaseTextureImageUnit]
        rw [Finmap.lookup_erase]
        dsimp only
        exact TR_ext (Finset.erase_idem) rfl
      · rw [if_neg hempty, releaseTextureImageUnitLayer_none_eq]
        dsimp only [releaseTextureImageUnit]
        rw [Finmap.lookup_insert]
        dsimp only
        rw [Finset.erase_idem, if_neg hempty]
        exact TR_ext (Finset.erase_idem) (Finmap.insert_insert _)

/-- Witness for C7 (amended) at a concrete input. -/
theorem C7_release_idempotent_witness :
    releaseTextureImageUnit 5 (⟨{0}, ∅⟩ : TerrainResources)
      = (⟨{0}, ∅⟩ : TerrainResources) :=
  (C7_release_idempotent 5 0 ⟨{0}, ∅⟩).1 (by decide)

/-- C8: the handle-based layer-bound reserve with a null layer returns false
without touching the handle or the state (the warning log is outside the
state model), while the raw layer-bound reserve with a null layer behaves as
the global raw reserve; for a non-null layer — and for the global forms —
the raw and handle forms agree on the success flag, the final state, and the
unit handed out, so the null-layer case is the only asymmetry. -/
theorem C8_null_layer_asymmetry (maxUnits : ℕ) (r : TextureImageUnitReservation)
    (l : ℤ) (s : TerrainResources) :
    (reserveTextureImageUnitForLayer maxUnits r none s = (false, r, s)) ∧
    (reserveTextureImageUnitLayer maxUnits none s
       = reserveTextureImageUnit maxUnits s) ∧
    ((reserveTextureImageUnitHandle maxUnits r s).1
       = (reserveTextureImageUnit maxUnits s).1 ∧
     (reserveTextureImageUnitHandle maxUnits r s).2.2
       = (reserveTextureImageUnit maxUnits s).2.2 ∧
     ((reserveTextureImageUnitHandle maxUnits r s).1 = true →
        (reserveTextureImageUnitHandle maxUnits r s).2.1.unit
          = (reserveTextureImageUnit maxUnits s).2.1)) ∧
    ((reserveTextureImageUnitForLayer maxUnits r (some l) s).1
       = (reserveTextureImageUnitLayer maxUnits (some l) s).1 ∧
     (reserveTextureImageUnitForLayer maxUnits r (some l) s).2.2
       = (reserveTextureImageUnitLayer maxUnits (some l) s).2.2 ∧
     ((reserveTextureImageUnitForLayer maxUnits r (some l) s).1 = true →
        (reserveTextureImageUnitForLayer maxUnits r (some l) s).2.1.unit
          = (reserveTextureImageUnitLayer maxUnits (some l) s).2.1)) := by
  refine ⟨rfl, rfl, ?_, ?_⟩
  · rcases reserveTextureImageUnitHandle_eq maxUnits r s with ⟨hf, heq⟩ | ⟨i, hf, heq⟩ <;>
      rcases reserveTextureImageUnit_eq maxUnits s with ⟨hf2, heq2⟩ | ⟨i2, hf2, heq2⟩
    · rw [heq, heq2]
      exact ⟨rfl, rfl, by simp⟩
    · rw [hf] at hf2
      cases hf2
    · rw [hf] at hf2
      cases hf2
    · rw [hf] at hf2
      obtain rfl : i = i2 := Option.some.inj hf2
      rw [heq, heq2]
      exact ⟨rfl, rfl, fun _ => rfl⟩
  · rcases reserveTextureImageUnitForLayer_eq maxUnits r l s with ⟨hf, heq⟩ | ⟨i, hf, heq⟩ <;>
      rcases reserveTextureImageUnitLayer_eq maxUnits l s with ⟨hf2, heq2⟩ | ⟨i2, hf2, heq2⟩
    · rw [heq, heq2]
      exact ⟨rfl, rfl, by simp⟩
    · rw [hf] at hf2
      cases hf2
    · rw [hf] at hf2
      cases hf2
    · rw [hf] at hf2
      obtain rfl : i = i2 := Option.some.inj hf2
      rw [heq, heq2]
      exact ⟨rfl, rfl, fun _ => rfl⟩

/-- Witness for C8 at a concrete input: on the fresh allocator the handle
and raw layer-bound reserves for layer 1 hand out the same unit. -/
theorem C8_null_layer_asymmetry_witness :
    (reserveTextureImageUnitForLayer 4 ⟨-1, none⟩ (some 1)
        freshTerrainResources).2.1.unit
      = (reserveTextureImageUnitLayer 4 (some 1) freshTerrainResources).2.1 :=
  (C8_null_layer_asymmetry 4 ⟨-1, none⟩ 1 freshTerrainResources).2.2.2.2.2 (by decide)

/-- C9 (implicit): a layer-bound reserve with a non-null layer always leaves
that layer present as a key of `P`, even when it fails by exhaustion — a
fresh layer failing its reserve is left mapped to the empty set — and that
(empty) entry survives every other operation until a layer-bound release for
that very layer prunes it. -/
theorem C9_failed_layer_reserve_leaves_key (maxUnits : ℕ) (l : ℤ)
    (r : TextureImageUnitReservation) (s : TerrainResources) :
    ((reserveTextureImageUnitLayer maxUnits (some l)
        s).2.2.perLayerReservedUnits.lookup (some l) ≠ none) ∧
    ((reserveTextureImageUnitForLayer maxUnits r (some l)
        s).2.2.perLayerReservedUnits.lookup (some l) ≠ none) ∧
    (s.perLayerReservedUnits.lookup (some l) = none →
       (reserveTextureImageUnitLayer maxUnits (some l) s).1 = false →
       (reserveTextureImageUnitLayer maxUnits (some l)
          s).2.2.perLayerReservedUnits.lookup (some l) = some ∅) ∧
    (∀ t : TerrainResources, t.perLayerReservedUnits.lookup (some l) = some ∅ →
       ((reserveTextureImageUnit maxUnits
           t).2.2.perLayerReservedUnits.lookup (some l) = some ∅) ∧
       ((reserveTextureImageUnitHandle maxUnits r
           t).2.2.perLayerReservedUnits.lookup (some l) = some ∅) ∧
       (∀ l2 : ℤ, l2 ≠ l → (reserveTextureImageUnitLayer maxUnits (some l2)
           t).2.2.perLayerReservedUnits.lookup (some l) = some ∅) ∧
       (∀ v, (setTextureImageUnitOffLimits v
           t).2.perLayerReservedUnits.lookup (some l) = some ∅) ∧
       (∀ v, (releaseTextureImageUnit v
           t).perLayerReservedUnits.lookup (some l) = some ∅) ∧
       (∀ (v : ℤ) (l2 : ℤ), l2 ≠ l → (releaseTextureImageUnitLayer v (some l2)
           t).perLayerReservedUnits.lookup (some l) = some ∅) ∧
       (∀ v, (releaseTextureImageUnitLayer v none
           t).perLayerReservedUnits.lookup (some l) = some ∅) ∧
       (∀ v, (releaseTextureImageUnitLayer v (some l)
           t).perLayerReservedUnits.lookup (some l) = none)) := by
  refine ⟨?_, ?_, ?_, ?_⟩
  · rcases reserveTextureImageUnitLayer_eq maxUnits l s with ⟨-, heq⟩ | ⟨i, -, heq⟩ <;>
      rw [heq] <;> dsimp only <;> rw [Finmap.lookup_insert] <;> simp
  · rcases reserveTextureImageUnitForLayer_eq maxUnits r l s with ⟨-, heq⟩ | ⟨i, -, heq⟩ <;>
      rw [heq] <;> dsimp only <;> rw [Finmap.lookup_insert] <;> simp
  · intro hlk hfail
    rcases reserveTextureImageUnitLayer_eq maxUnits l s with ⟨-, heq⟩ | ⟨i, -, heq⟩
    · rw [heq]
      dsimp only
      rw [Finmap.lookup_insert, lookupUnits, hlk]
      rfl
    · rw [heq] at hfail
      cases hfail
  · intro t hlk
    refine ⟨?_, ?_, ?_, ?_, ?_, ?_, ?_, ?_⟩
    · rcases reserveTextureImageUnit_eq maxUnits t with ⟨-, heq⟩ | ⟨i, -, heq⟩ <;>
        rw [heq] <;> exact hlk
    · rcases reserveTextureImageUnitHandle_eq maxUnits r t with ⟨-, heq⟩ | ⟨i, -, heq⟩ <;>
        rw [heq] <;> exact hlk
    · intro l2 hne
      rcases reserveTextureImageUnitLayer_eq maxUnits l2 t with ⟨-, heq⟩ | ⟨i, -, heq⟩ <;>
        rw [heq] <;> dsimp only <;>
        rw [Finmap.lookup_insert_of_ne _ (by simpa using fun h => hne h.symm)] <;>
        exact hlk
    · intro v
      rw [setTextureImageUnitOffLimits]
      split_ifs <;> exact hlk
    · intro v
      exact hlk
    · intro v l2 hne
      rw [releaseTextureImageUnitLayer_some_eq]
      cases hc : t.perLayerReservedUnits.lookup (some l2) with
      | none => exact hlk
      | some units =>
        dsimp only
        split
        · rw [Finmap.lookup_erase_ne (by simpa using fun h => hne h.symm)]
          exact hlk
        · rw [Finmap.lookup_insert_of_ne _ (by simpa using fun h => hne h.symm)]
          exact hlk
    · intro v
      rw [releaseTextureImageUnitLayer_none_eq]
      cases hc : t.perLayerReservedUnits.lookup none with
      | none => exact hlk
      | some units =>
        dsimp only
        split
        · rw [Finmap.lookup_erase_ne (by simp)]
          exact hlk
        · rw [Finmap.lookup_insert_of_ne _ (by simp)]
          exact hlk
    · intro v
      rw [releaseTextureImageUnitLayer_some_eq, hlk]
      dsimp only
      rw [if_pos (by simp)]
      exact Finmap.lookup_erase ..

/-- Witness for C9 at a concrete input: a failing layer-bound reserve
(`maxUnits = 0`) on the fresh allocator leaves layer 1 mapped to `∅`. -/
theorem C9_failed_layer_reserve_leaves_key_witness :
    (reserveTextureImageUnitLayer 0 (some 1)
        freshTerrainResources).2.2.perLayerReservedUnits.lookup (some 1) = some ∅ :=
  (C9_failed_layer_reserve_leaves_key 0 1 ⟨-1, none⟩ freshTerrainResources).2.2.1
    (by decide) (by decide)

/-- C10 (implicit): `setTextureImageUnitOffLimits` performs no range check —
for any integer unit, negative or at least `maxUnits` included, it succeeds
and inserts the unit into `G` whenever the unit is in neither `G` nor any
per-layer set; `maxUnits` plays no role in the operation. -/
theorem C10_markOffLimits_no_range_check (u : ℤ) (maxUnits : ℕ)
    (s : TerrainResources) :
    (u < 0 ∨ (maxUnits : ℤ) ≤ u) →
    u ∉ s.globallyReservedUnits →
    u ∉ perLayerTaken s →
    setTextureImageUnitOffLimits u s
      = (true, { s with globallyReservedUnits := insert u s.globallyReservedUnits }) := by
  intro _ h1 h2
  rw [setTextureImageUnitOffLimits, if_neg h1, if_neg h2]

/-- Witness for C10 at a concrete input: unit −5 is accepted on the fresh
allocator although it lies outside `[0, 4)`. -/
theorem C10_markOffLimits_no_range_check_witness :
    setTextureImageUnitOffLimits (-5) freshTerrainResources
      = (true, { freshTerrainResources with
          globallyReservedUnits := insert (-5) freshTerrainResources.globallyReservedUnits }) :=
  C10_markOffLimits_no_range_check (-5) 4 freshTerrainResources
    (by decide) (by decide) (by decide)

end OsgEarth
